import Mathlib

/-!
Verification development for the Semantic Scholar publication-trend tool
(`search_query.py`).  The meaningful logic of the program — the retrying
query executor `search_semantic_scholar`, the sweep loop over the cartesian
product of topics × years, and the plot-type switch `create_plot` — is
embedded shallowly below.  Network responses, jitter draws and courtesy
delays are modelled as explicit inputs, so every definition is executable.
-/

set_option autoImplicit false

/-- Substring test on character lists: does `pat` occur as a prefix? -/
def isPrefixChars : List Char → List Char → Bool
  | [], _ => true
  | _ :: _, [] => false
  | p :: ps, c :: cs => p == c && isPrefixChars ps cs

/-- Substring test on character lists: does `pat` occur anywhere? -/
def hasSubstrChars (pat : List Char) : List Char → Bool
  | [] => isPrefixChars pat []
  | c :: cs => isPrefixChars pat (c :: cs) || hasSubstrChars pat cs

/-- The Python substring containment test `pat in s` on strings. -/
def strContains (s pat : String) : Bool :=
  hasSubstrChars pat.data s.data

deriving instance DecidableEq for Except

/-- One HTTP response to the primary count request issued by
`search_semantic_scholar`.  `rateLimited` is status 429; `httpError m` is any
`requests.exceptions.RequestException` (from `requests.get` or
`raise_for_status`) whose `str(e)` is `m`; `success total cit` is a 2xx
response whose JSON `total` field is `total`, bundled with the outcome the
secondary citation-sampling request would have (an exception message, or the
optional `data` list of per-paper `citationCount` values). -/
inductive ApiResponse where
  | rateLimited
  | httpError (msg : String)
  | success (total : Nat) (cit : Except String (Option (List Nat)))
  deriving DecidableEq

/-- Which backoff branch slept: the 429 branch (base 3) or the
`RequestException` branch (base 2). -/
inductive BackoffKind where
  | rateLimit
  | transient
  deriving DecidableEq

/-- One backoff sleep performed inside the retry loop: the kind of error, the
1-based retry number (`retry_count` after its increment) and the wait time. -/
structure BackoffEvent where
  kind : BackoffKind
  retryNumber : Nat
  wait : Rat
  deriving DecidableEq

/-- The 429-branch wait, `(3 ** retry_count) + random.uniform(0, 1)` (line 165). -/
def rateLimitWait (retry_count : Nat) (jitter : Rat) : Rat :=
  3 ^ retry_count + jitter

/-- The connection-error wait, `(2 ** retry_count) + random.uniform(0, 1)` (line 209). -/
def transientWait (retry_count : Nat) (jitter : Rat) : Rat :=
  2 ^ retry_count + jitter

/-- The exhaustion message of line 162: Rate limit exceeded after N retries. -/
def rateLimitExceededMsg (max_retries : Nat) : String :=
  "Rate limit exceeded after " ++ toString max_retries ++ " retries"

/-- The transport-error message of line 206: API Error followed by the detail. -/
def apiErrorMsg (m : String) : String :=
  "API Error: " ++ m

/-- The advisory message of line 199: publication count was obtained but the
citation data could not be retrieved. -/
def citationAdvisoryMsg (e : String) : String :=
  "Got publication count but couldn\x27t retrieve citation data: " ++ e

/-- The post-loop fallback message of line 213. -/
def maxRetriesMsg : String := "Max retries exceeded"

/-- The success path of `search_semantic_scholar` (lines 170–201): extract
`total`, and when citations are requested and the count is positive run the
secondary sampling request, averaging `citationCount` over the returned
papers; a failure there is downgraded to an advisory message with citation
count 0. -/
def processSuccess (include_citations : Bool) (total : Nat)
    (cit : Except String (Option (List Nat))) : Nat × Rat × Option String :=
  if include_citations = true ∧ 0 < total then
    match cit with
    | .error e => (total, 0, some (citationAdvisoryMsg e))
    | .ok none => (total, 0, none)
    | .ok (some papers) =>
      if papers.isEmpty then (total, 0, none)
      else (total, (papers.sum : Rat) / (papers.length : Rat), none)
  else (total, 0, none)

/-- Outcome of the `while retry_count <= max_retries` loop: either a `return`
executed inside the loop body, or the loop condition became false and control
fell through to line 213. -/
inductive LoopOutcome where
  | returned (pubs : Nat) (citAvg : Rat) (err : Option String)
  | fellThrough
  deriving DecidableEq

/-- The retry loop of `search_semantic_scholar` (lines 153–211).  `rc` is
`retry_count`; the first argument is the number of loop iterations the
condition `retry_count <= max_retries` still permits, i.e. `mr + 1 - rc`,
so the `0` case is exactly the loop condition turning false.  `resp n` is the
response to the request issued with `retry_count = n`, and `j n` the jitter
drawn for the sleep of retry number `n`.  Alongside the outcome, the list of
backoff sleeps performed is returned. -/
def searchGo (resp : Nat → ApiResponse) (include_citations : Bool) (mr : Nat)
    (j : Nat → Rat) : Nat → Nat → LoopOutcome × List BackoffEvent
  | 0, _ => (.fellThrough, [])
  | d + 1, rc =>
    match resp rc with
    | .rateLimited =>
      if rc + 1 > mr then
        (.returned 0 0 (some (rateLimitExceededMsg mr)), [])
      else
        let w := rateLimitWait (rc + 1) (j (rc + 1))
        let rest := searchGo resp include_citations mr j d (rc + 1)
        (rest.1, ⟨.rateLimit, rc + 1, w⟩ :: rest.2)
    | .httpError m =>
      if rc + 1 > mr ∨ strContains m "429" = false then
        (.returned 0 0 (some (apiErrorMsg m)), [])
      else
        let w := transientWait (rc + 1) (j (rc + 1))
        let rest := searchGo resp include_citations mr j d (rc + 1)
        (rest.1, ⟨.transient, rc + 1, w⟩ :: rest.2)
    | .success total cit =>
      let r := processSuccess include_citations total cit
      (.returned r.1 r.2.1 r.2.2, [])

/-- The retry loop entered at `retry_count = rc`. -/
def searchLoop (resp : Nat → ApiResponse) (include_citations : Bool)
    (mr : Nat) (j : Nat → Rat) (rc : Nat) : LoopOutcome × List BackoffEvent :=
  searchGo resp include_citations mr j (mr + 1 - rc) rc

/-- The triple `(publication_count, average_citation_count, error_or_none)`
returned by `search_semantic_scholar`. -/
structure SearchResult where
  pubs : Nat
  citAvg : Rat
  err : Option String
  deriving DecidableEq

/-- The function `search_semantic_scholar` (lines 138–213): run the retry loop from
`retry_count = 0`; if the loop falls through, line 213 returns
`(0, 0, "Max retries exceeded")`. -/
def search_semantic_scholar (resp : Nat → ApiResponse)
    (include_citations : Bool) (mr : Nat) (j : Nat → Rat) :
    SearchResult × List BackoffEvent :=
  match searchLoop resp include_citations mr j 0 with
  | (.returned p c e, evs) => (⟨p, c, e⟩, evs)
  | (.fellThrough, evs) => (⟨0, 0, some maxRetriesMsg⟩, evs)

/-- One Result Record, the dict built at lines 358–365: `Topic`, `Year`,
`Publications`, and — only when `include_citations` — `Average Citations`. -/
structure ResultRecord where
  topic : String
  year : Int
  publications : Nat
  avgCitations : Option Rat
  deriving DecidableEq

/-- The (topic, year) key of a Result Record. -/
def recordKey (r : ResultRecord) : String × Int :=
  (r.topic, r.year)

/-- Observable actions of the sweep loop: the courtesy `time.sleep(delay)`
(line 349) and the call to `search_semantic_scholar` for a pair (line 351). -/
inductive SweepEvent where
  | sleep (d : Rat)
  | invoke (topic : String) (year : Int)
  deriving DecidableEq

/-- The per-pair error entry of line 354: Error for (topic) in (year), then the
executor message. -/
def sweepErrMsg (topic : String) (year : Int) (m : String) : String :=
  "Error for \x27" ++ topic ++ "\x27 in " ++ toString year ++ ": " ++ m

/-- The validation message shown by st.error at line 313. -/
def validationErrMsg : String :=
  "Start year must be less than or equal to end year."

/-- The mutable state of one sweep: the `results` and `errors` lists the loop
appends to, plus the trace of sleeps and executor invocations. -/
structure SweepState where
  results : List ResultRecord
  errors : List String
  trace : List SweepEvent
  deriving DecidableEq

/-- The `SearchResult` the executor produces for pair `p`: the sweep calls
`search_semantic_scholar(query, year, include_citations)` with the default
`max_retries = 3` (line 351), where `query = topic`.  `env t y` is the
response stream for the pair and `jE t y` its jitter draws. -/
def pairOutcome (env : String → Int → Nat → ApiResponse)
    (jE : String → Int → Nat → Rat) (include_citations : Bool)
    (p : String × Int) : SearchResult :=
  (search_semantic_scholar (env p.1 p.2) include_citations 3 (jE p.1 p.2)).1

/-- The Result Record appended for pair `p` (lines 358–365): the
`Average Citations` key is added exactly when `include_citations` is set. -/
def recordFor (env : String → Int → Nat → ApiResponse)
    (jE : String → Int → Nat → Rat) (include_citations : Bool)
    (p : String × Int) : ResultRecord :=
  let r := pairOutcome env jE include_citations p
  { topic := p.1, year := p.2, publications := r.pubs,
    avgCitations := if include_citations then some r.citAvg else none }

/-- The error-list increment for pair `p` (lines 353–354): one formatted
entry when the executor returned an error message, nothing otherwise. -/
def errListFor (env : String → Int → Nat → ApiResponse)
    (jE : String → Int → Nat → Rat) (include_citations : Bool)
    (p : String × Int) : List String :=
  match (pairOutcome env jE include_citations p).err with
  | some m => [sweepErrMsg p.1 p.2 m]
  | none => []

/-- One iteration of the sweep loop body (lines 340–367): sleep the courtesy
delay `dE topic year` drawn from `random.uniform(min_delay, max_delay)`,
invoke the executor, append the error entry if any, append the record. -/
def sweepStep (env : String → Int → Nat → ApiResponse)
    (jE : String → Int → Nat → Rat) (dE : String → Int → Rat)
    (include_citations : Bool) (st : SweepState) (p : String × Int) :
    SweepState :=
  { results := st.results ++ [recordFor env jE include_citations p],
    errors := st.errors ++ errListFor env jE include_citations p,
    trace := st.trace ++ [.sleep (dE p.1 p.2), .invoke p.1 p.2] }

/-- The year range `list(range(start_year, end_year + 1))` of line 315. -/
def yearsList (start_year end_year : Int) : List Int :=
  List.map (fun i : Nat => start_year + (i : Int))
    (List.range (end_year + 1 - start_year).toNat)

/-- The cartesian product iterated by the nested loops at lines 339–340:
topics in input order, years ascending within each topic. -/
def pairsOf : List String → List Int → List (String × Int)
  | [], _ => []
  | t :: ts, years => years.map (fun y => (t, y)) ++ pairsOf ts years

/-- The nested sweep loops (lines 334–371), run from empty accumulators. -/
def runSweep (env : String → Int → Nat → ApiResponse)
    (jE : String → Int → Nat → Rat) (dE : String → Int → Rat)
    (include_citations : Bool) (topic_list : List String)
    (start_year end_year : Int) : SweepState :=
  let years := yearsList start_year end_year
  topic_list.foldl
    (fun st t =>
      years.foldl (fun st y => sweepStep env jE dE include_citations st (t, y)) st)
    { results := [], errors := [], trace := [] }

/-- Outcome of submitting the search form (lines 309–371): either the
validation rejection or a completed sweep. -/
structure SearchRun where
  validationError : Option String
  results : List ResultRecord
  errors : List String
  trace : List SweepEvent
  deriving DecidableEq

/-- The submit handler: `if start_year > end_year: st.error(...)` rejects the
whole sweep before any request; otherwise the sweep runs (lines 312–371). -/
def handleSearch (env : String → Int → Nat → ApiResponse)
    (jE : String → Int → Nat → Rat) (dE : String → Int → Rat)
    (include_citations : Bool) (topic_list : List String)
    (start_year end_year : Int) : SearchRun :=
  if start_year > end_year then
    { validationError := some validationErrMsg,
      results := [], errors := [], trace := [] }
  else
    let st := runSweep env jE dE include_citations topic_list start_year end_year
    { validationError := none, results := st.results,
      errors := st.errors, trace := st.trace }

/-- A plotly figure as configured by `create_plot` (lines 216–252): which
`px` constructor was used and the arguments passed, plus the
`update_layout` settings applied before returning. -/
structure Fig where
  kind : String
  x : String
  y : String
  color : String
  title : String
  labels : List (String × String)
  markers : Bool
  barmode : Option String
  dtick : Nat
  layoutApplied : Bool
  deriving DecidableEq

/-- The `update_layout` call of lines 247–250: linear tick mode with
`dtick = max(1, len(df[x].unique()) // 10)` and the legend placement; `df` is
modelled by its x-axis column. -/
def update_layout (df : List Int) (fig : Fig) : Fig :=
  { fig with dtick := max 1 (df.dedup.length / 10), layoutApplied := true }

/-- The function `create_plot` (lines 216–252).  The three recognised plot types assign
`fig`; any other value leaves `fig` unassigned, so `fig.update_layout` raises
`UnboundLocalError` — modelled as `none`. -/
def create_plot (df : List Int) (plot_type x y color title : String)
    (labels : List (String × String)) : Option Fig :=
  let base : Option Fig :=
    if plot_type = "Line Plot" then
      some { kind := "line", x := x, y := y, color := color, title := title,
             labels := labels, markers := true, barmode := none,
             dtick := 0, layoutApplied := false }
    else if plot_type = "Bar Plot" then
      some { kind := "bar", x := x, y := y, color := color, title := title,
             labels := labels, markers := false, barmode := some "group",
             dtick := 0, layoutApplied := false }
    else if plot_type = "Area Plot" then
      some { kind := "area", x := x, y := y, color := color, title := title,
             labels := labels, markers := false, barmode := none,
             dtick := 0, layoutApplied := false }
    else none
  match base with
  | some fig => some (update_layout df fig)
  | none => none

/-- The trace the sweep loop produces over a pair list: for each pair, the
courtesy sleep followed by the executor invocation. -/
def traceOf (dE : String → Int → Rat) : List (String × Int) → List SweepEvent
  | [] => []
  | p :: ps => .sleep (dE p.1 p.2) :: .invoke p.1 p.2 :: traceOf dE ps

/-- A response stream that is rate-limited on every attempt. -/
def respAll429 : Nat → ApiResponse := fun _ => ApiResponse.rateLimited

/-- A response stream raising a connection error (no "429" in its text) on
every attempt. -/
def respConnReset : Nat → ApiResponse :=
  fun _ => ApiResponse.httpError "Connection reset by peer"

/-- A zero jitter draw for every retry. -/
def zeroJitter : Nat → Rat := fun _ => 0

/-- A pair environment whose primary request always succeeds with total 5. -/
def envTotalFive : String → Int → Nat → ApiResponse :=
  fun _ _ _ => ApiResponse.success 5 (Except.ok none)

/-- A pair environment whose primary request always succeeds with total 0. -/
def envTotalZero : String → Int → Nat → ApiResponse :=
  fun _ _ _ => ApiResponse.success 0 (Except.ok none)

/-- A pair environment with a positive primary count whose secondary
citation request raises. -/
def envCitFail : String → Int → Nat → ApiResponse :=
  fun _ _ _ => ApiResponse.success 7 (Except.error "boom")

/-- Zero jitter draws for every pair. -/
def zeroJitterEnv : String → Int → Nat → Rat := fun _ _ _ => 0

/-- A courtesy-delay draw of 0 seconds for every pair. -/
def zeroDelayEnv : String → Int → Rat := fun _ _ => 0

/-- A courtesy-delay draw of 1 second for every pair. -/
def oneDelayEnv : String → Int → Rat := fun _ _ => 1

theorem rateLimitExceededMsg_ne_empty (mr : Nat) : rateLimitExceededMsg mr ≠ "" := by
  intro h
  have hlen := congrArg String.length h
  rw [rateLimitExceededMsg, String.length_append, String.length_append] at hlen
  have h1 : ("Rate limit exceeded after " : String).length = 26 := rfl
  have h2 : ("" : String).length = 0 := rfl
  omega

theorem sweepErrMsg_ne_empty (t : String) (y : Int) (m : String) :
    sweepErrMsg t y m ≠ "" := by
  intro h
  have hlen := congrArg String.length h
  rw [sweepErrMsg, String.length_append, String.length_append, String.length_append,
    String.length_append, String.length_append] at hlen
  have h1 : ("Error for \x27" : String).length = 11 := rfl
  have h2 : ("" : String).length = 0 := rfl
  omega

theorem searchGo_ne_fellThrough (resp : Nat → ApiResponse) (ic : Bool) (mr : Nat)
    (j : Nat → Rat) :
    ∀ (d : Nat), ∀ (rc : Nat), rc ≤ mr → mr + 1 - rc ≤ d →
      (searchGo resp ic mr j d rc).1 ≠ LoopOutcome.fellThrough := by
  intro d
  induction d with
  | zero => intro rc h1 h2; omega
  | succ d ih =>
    intro rc h1 _
    rw [searchGo]
    split
    · by_cases hgt : rc + 1 > mr
      · rw [if_pos hgt]; simp
      · rw [if_neg hgt]
        exact ih (rc + 1) (by omega) (by omega)
    · rename_i m heq
      by_cases hcond : rc + 1 > mr ∨ strContains m "429" = false
      · rw [if_pos hcond]; simp
      · rw [if_neg hcond]
        rcases not_or.mp hcond with ⟨hle, _⟩
        exact ih (rc + 1) (by omega) (by omega)
    · simp

/-- C9: the final fallback `return 0, 0, "Max retries exceeded"` after the
retry loop is unreachable: started at `retry_count = 0`, for every response
sequence the loop returns from inside its body before the condition
`retry_count <= max_retries` can become false. -/
theorem c9_fallback_unreachable (resp : Nat → ApiResponse) (ic : Bool) (mr : Nat)
    (j : Nat → Rat) :
    (searchLoop resp ic mr j 0).1 ≠ LoopOutcome.fellThrough :=
  searchGo_ne_fellThrough resp ic mr j (mr + 1) 0 (Nat.zero_le mr) (by omega)

theorem searchGo_all429 (ic : Bool) (mr : Nat) (j : Nat → Rat) :
    ∀ (d : Nat), ∀ (rc : Nat), rc ≤ mr → mr + 1 - rc = d →
      (searchGo respAll429 ic mr j d rc).1
          = LoopOutcome.returned 0 0 (some (rateLimitExceededMsg mr))
      ∧ (searchGo respAll429 ic mr j d rc).2.length = mr - rc := by
  intro d
  induction d with
  | zero => intro rc h1 h2; omega
  | succ d ih =>
    intro rc h1 h2
    rw [searchGo]
    simp only [respAll429]
    by_cases hgt : rc + 1 > mr
    · rw [if_pos hgt]
      refine ⟨rfl, ?_⟩
      simp only [List.length_nil]
      omega
    · rw [if_neg hgt]
      obtain ⟨ho, hl⟩ := ih (rc + 1) (by omega) (by omega)
      refine ⟨ho, ?_⟩
      simp only [List.length_cons]
      omega

theorem searchLoop_zero (resp : Nat → ApiResponse) (ic : Bool) (mr : Nat) (j : Nat → Rat) :
    searchLoop resp ic mr j 0 = searchGo resp ic mr j (mr + 1) 0 := rfl

theorem search_semantic_scholar_evs (resp : Nat → ApiResponse) (ic : Bool) (mr : Nat)
    (j : Nat → Rat) :
    (search_semantic_scholar resp ic mr j).2 = (searchLoop resp ic mr j 0).2 := by
  unfold search_semantic_scholar
  rcases h : searchLoop resp ic mr j 0 with ⟨o, evs⟩
  cases o <;> simp

/-- C3: when every attempt is rate-limited (`max_retries + 1` consecutive 429
responses), `search_semantic_scholar` returns publication count 0, citation
count 0 and a non-empty error message, and performs exactly `max_retries`
backoff sleeps — in particular no more than `max_retries` — before giving
up. -/
theorem c3_rate_limit_exhaustion (ic : Bool) (mr : Nat) (j : Nat → Rat) :
    (search_semantic_scholar respAll429 ic mr j).1
        = ⟨0, 0, some (rateLimitExceededMsg mr)⟩
    ∧ (search_semantic_scholar respAll429 ic mr j).2.length = mr
    ∧ rateLimitExceededMsg mr ≠ "" := by
  obtain ⟨ho, hl⟩ := searchGo_all429 ic mr j (mr + 1) 0 (Nat.zero_le mr) (by omega)
  have hloop : searchLoop respAll429 ic mr j 0
      = (LoopOutcome.returned 0 0 (some (rateLimitExceededMsg mr)),
         (searchGo respAll429 ic mr j (mr + 1) 0).2) := by
    rw [searchLoop_zero]
    rcases hpair : searchGo respAll429 ic mr j (mr + 1) 0 with ⟨o, evs⟩
    rw [hpair] at ho
    simp only at ho
    rw [ho]
  refine ⟨?_, ?_, rateLimitExceededMsg_ne_empty mr⟩
  · unfold search_semantic_scholar
    rw [hloop]
  · rw [search_semantic_scholar_evs, hloop]
    simpa using hl

theorem searchGo_allHttp429 (m : String) (ic : Bool) (mr : Nat) (j : Nat → Rat)
    (hm : strContains m "429" = true) :
    ∀ (d : Nat), ∀ (rc : Nat), rc ≤ mr → mr + 1 - rc = d →
      (searchGo (fun _ => ApiResponse.httpError m) ic mr j d rc).1
          = LoopOutcome.returned 0 0 (some (apiErrorMsg m))
      ∧ (searchGo (fun _ => ApiResponse.httpError m) ic mr j d rc).2.length = mr - rc := by
  intro d
  induction d with
  | zero => intro rc h1 h2; omega
  | succ d ih =>
    intro rc h1 h2
    rw [searchGo]
    simp only
    by_cases hgt : rc + 1 > mr
    · rw [if_pos (Or.inl hgt)]
      refine ⟨rfl, ?_⟩
      simp only [List.length_nil]
      omega
    · rw [if_neg (by simp [hgt, hm])]
      obtain ⟨ho, hl⟩ := ih (rc + 1) (by omega) (by omega)
      refine ⟨ho, ?_⟩
      simp only [List.length_cons]
      omega

/-- C4 (counterexample): a generic transient network error whose message does
not contain "429" is returned immediately on the first occurrence as a
per-item API error, with zero retries and zero backoff sleeps — it is not
retried `max_retries` times as the claim states. -/
theorem c4_counterexample_immediate :
    search_semantic_scholar respConnReset false 3 zeroJitter
      = (⟨0, 0, some "API Error: Connection reset by peer"⟩, []) := rfl

/-- C4 (amended): only a `RequestException` whose message contains "429" is
retried with bounded exponential backoff (base 2): with such an error on
every attempt the executor performs exactly `max_retries` backoff sleeps and
then downgrades to the per-item error `API Error: <detail>`; any other
transport error returns immediately (see the counterexample). -/
theorem c4_amended_transient_retry (m : String) (ic : Bool) (mr : Nat) (j : Nat → Rat)
    (hm : strContains m "429" = true) :
    (search_semantic_scholar (fun _ => ApiResponse.httpError m) ic mr j).1
        = ⟨0, 0, some (apiErrorMsg m)⟩
    ∧ (search_semantic_scholar (fun _ => ApiResponse.httpError m) ic mr j).2.length = mr := by
  obtain ⟨ho, hl⟩ := searchGo_allHttp429 m ic mr j hm (mr + 1) 0 (Nat.zero_le mr) (by omega)
  have hloop : searchLoop (fun _ => ApiResponse.httpError m) ic mr j 0
      = (LoopOutcome.returned 0 0 (some (apiErrorMsg m)),
         (searchGo (fun _ => ApiResponse.httpError m) ic mr j (mr + 1) 0).2) := by
    rw [searchLoop_zero]
    rcases hpair : searchGo (fun _ => ApiResponse.httpError m) ic mr j (mr + 1) 0 with ⟨o, evs⟩
    rw [hpair] at ho
    simp only at ho
    rw [ho]
  constructor
  · unfold search_semantic_scholar
    rw [hloop]
  · rw [search_semantic_scholar_evs, hloop]
    simpa using hl

/-- C4 (witness for the amended theorem): instantiated at a "429"-carrying
transport error, `max_retries = 3`. -/
theorem c4_amended_transient_retry_witness :
    (search_semantic_scholar (fun _ => ApiResponse.httpError "429 Client Error") false 3 zeroJitter).1
        = ⟨0, 0, some (apiErrorMsg "429 Client Error")⟩
    ∧ (search_semantic_scholar (fun _ => ApiResponse.httpError "429 Client Error") false 3 zeroJitter).2.length = 3 :=
  c4_amended_transient_retry "429 Client Error" false 3 zeroJitter (by decide)

theorem searchGo_events (resp : Nat → ApiResponse) (ic : Bool) (mr : Nat) (j : Nat → Rat) :
    ∀ (d : Nat) (rc : Nat), ∀ e ∈ (searchGo resp ic mr j d rc).2,
      1 ≤ e.retryNumber
      ∧ (e.kind = BackoffKind.rateLimit →
          e.wait = rateLimitWait e.retryNumber (j e.retryNumber))
      ∧ (e.kind = BackoffKind.transient →
          e.wait = transientWait e.retryNumber (j e.retryNumber)) := by
  intro d
  induction d with
  | zero => intro rc e he; simp [searchGo] at he
  | succ d ih =>
    intro rc e he
    rw [searchGo] at he
    split at he
    · split at he
      · simp at he
      · simp only [List.mem_cons] at he
        rcases he with rfl | he
        · exact ⟨Nat.le_add_left 1 rc, fun _ => rfl, fun hk => by simp at hk⟩
        · exact ih (rc + 1) e he
    · split at he
      · simp at he
      · simp only [List.mem_cons] at he
        rcases he with rfl | he
        · exact ⟨Nat.le_add_left 1 rc, fun hk => by simp at hk, fun _ => rfl⟩
        · exact ih (rc + 1) e he
    · simp at he

/-- C5: every backoff sleep of retry attempt `n` (1-based) waits
`3^n + jitter` seconds after a rate-limit response and `2^n + jitter`
seconds after a generic transient error; with the jitter draw an arbitrary
value in `[0, 1)`, the wait lies in `[3^n, 3^n + 1)` resp. `[2^n, 2^n + 1)`. -/
theorem c5_backoff_window (resp : Nat → ApiResponse) (ic : Bool) (mr : Nat)
    (j : Nat → Rat) (hj : ∀ n, 0 ≤ j n ∧ j n < 1) :
    ∀ e ∈ (search_semantic_scholar resp ic mr j).2,
      1 ≤ e.retryNumber
      ∧ (e.kind = BackoffKind.rateLimit →
          3 ^ e.retryNumber ≤ e.wait ∧ e.wait < 3 ^ e.retryNumber + 1)
      ∧ (e.kind = BackoffKind.transient →
          2 ^ e.retryNumber ≤ e.wait ∧ e.wait < 2 ^ e.retryNumber + 1) := by
  intro e he
  rw [search_semantic_scholar_evs] at he
  obtain ⟨h1, h2, h3⟩ := searchGo_events resp ic mr j (mr + 1 - 0) 0 e he
  obtain ⟨hj0, hj1⟩ := hj e.retryNumber
  refine ⟨h1, fun hk => ?_, fun hk => ?_⟩
  · rw [h2 hk, rateLimitWait]
    constructor
    · linarith
    · linarith
  · rw [h3 hk, transientWait]
    constructor
    · linarith
    · linarith

/-- C5 (witness): the single backoff event of an all-429 run with
`max_retries = 1` and zero jitter. -/
theorem c5_backoff_window_witness :
    1 ≤ (⟨BackoffKind.rateLimit, 1, (3:Rat) ^ 1 + 0⟩ : BackoffEvent).retryNumber
    ∧ ((⟨BackoffKind.rateLimit, 1, (3:Rat) ^ 1 + 0⟩ : BackoffEvent).kind = BackoffKind.rateLimit →
        3 ^ (⟨BackoffKind.rateLimit, 1, (3:Rat) ^ 1 + 0⟩ : BackoffEvent).retryNumber
            ≤ (⟨BackoffKind.rateLimit, 1, (3:Rat) ^ 1 + 0⟩ : BackoffEvent).wait
        ∧ (⟨BackoffKind.rateLimit, 1, (3:Rat) ^ 1 + 0⟩ : BackoffEvent).wait
            < 3 ^ (⟨BackoffKind.rateLimit, 1, (3:Rat) ^ 1 + 0⟩ : BackoffEvent).retryNumber + 1)
    ∧ ((⟨BackoffKind.rateLimit, 1, (3:Rat) ^ 1 + 0⟩ : BackoffEvent).kind = BackoffKind.transient →
        2 ^ (⟨BackoffKind.rateLimit, 1, (3:Rat) ^ 1 + 0⟩ : BackoffEvent).retryNumber
            ≤ (⟨BackoffKind.rateLimit, 1, (3:Rat) ^ 1 + 0⟩ : BackoffEvent).wait
        ∧ (⟨BackoffKind.rateLimit, 1, (3:Rat) ^ 1 + 0⟩ : BackoffEvent).wait
            < 2 ^ (⟨BackoffKind.rateLimit, 1, (3:Rat) ^ 1 + 0⟩ : BackoffEvent).retryNumber + 1) :=
  c5_backoff_window respAll429 false 1 zeroJitter
    (fun _ => ⟨le_refl 0, by norm_num [zeroJitter]⟩)
    ⟨BackoffKind.rateLimit, 1, (3:Rat) ^ 1 + 0⟩
    (List.mem_singleton.mpr rfl)

theorem foldl_sweepStep_results (env : String → Int → Nat → ApiResponse)
    (jE : String → Int → Nat → Rat) (dE : String → Int → Rat) (ic : Bool) :
    ∀ (ps : List (String × Int)) (st : SweepState),
      (ps.foldl (sweepStep env jE dE ic) st).results
        = st.results ++ ps.map (recordFor env jE ic) := by
  intro ps
  induction ps with
  | nil => intro st; simp
  | cons p ps ih =>
    intro st
    simp only [List.foldl_cons, List.map_cons]
    rw [ih]
    simp [sweepStep]

theorem foldl_sweepStep_errors (env : String → Int → Nat → ApiResponse)
    (jE : String → Int → Nat → Rat) (dE : String → Int → Rat) (ic : Bool) :
    ∀ (ps : List (String × Int)) (st : SweepState),
      (ps.foldl (sweepStep env jE dE ic) st).errors
        = st.errors ++ ps.foldr (fun p acc => errListFor env jE ic p ++ acc) [] := by
  intro ps
  induction ps with
  | nil => intro st; simp
  | cons p ps ih =>
    intro st
    simp only [List.foldl_cons, List.foldr_cons]
    rw [ih]
    simp [sweepStep]

theorem foldl_sweepStep_trace (env : String → Int → Nat → ApiResponse)
    (jE : String → Int → Nat → Rat) (dE : String → Int → Rat) (ic : Bool) :
    ∀ (ps : List (String × Int)) (st : SweepState),
      (ps.foldl (sweepStep env jE dE ic) st).trace = st.trace ++ traceOf dE ps := by
  intro ps
  induction ps with
  | nil => intro st; simp [traceOf]
  | cons p ps ih =>
    intro st
    simp only [List.foldl_cons, traceOf]
    rw [ih]
    simp [sweepStep]

theorem nested_foldl_eq (env : String → Int → Nat → ApiResponse)
    (jE : String → Int → Nat → Rat) (dE : String → Int → Rat) (ic : Bool)
    (years : List Int) :
    ∀ (ts : List String) (st : SweepState),
      ts.foldl
        (fun st t => years.foldl (fun st y => sweepStep env jE dE ic st (t, y)) st) st
        = (pairsOf ts years).foldl (sweepStep env jE dE ic) st := by
  intro ts
  induction ts with
  | nil => intro st; simp [pairsOf]
  | cons t ts ih =>
    intro st
    simp only [List.foldl_cons, pairsOf]
    rw [List.foldl_append, ih]
    congr 1
    rw [List.foldl_map]

theorem runSweep_eq (env : String → Int → Nat → ApiResponse)
    (jE : String → Int → Nat → Rat) (dE : String → Int → Rat) (ic : Bool)
    (ts : List String) (sy ey : Int) :
    runSweep env jE dE ic ts sy ey
      = (pairsOf ts (yearsList sy ey)).foldl (sweepStep env jE dE ic)
          { results := [], errors := [], trace := [] } := by
  unfold runSweep
  rw [nested_foldl_eq]

theorem pairsOf_length :
    ∀ (ts : List String) (ys : List Int),
      (pairsOf ts ys).length = ts.length * ys.length := by
  intro ts ys
  induction ts with
  | nil => simp [pairsOf]
  | cons t ts ih => simp [pairsOf, ih, Nat.succ_mul, Nat.add_comm]

theorem yearsList_length (sy ey : Int) :
    (yearsList sy ey).length = (ey + 1 - sy).toNat := by
  rw [yearsList, List.length_map, List.length_range]

theorem map_key_recordFor (env : String → Int → Nat → ApiResponse)
    (jE : String → Int → Nat → Rat) (ic : Bool) :
    ∀ ps : List (String × Int), (ps.map (recordFor env jE ic)).map recordKey = ps := by
  intro ps
  induction ps with
  | nil => rfl
  | cons p ps ih =>
    cases p
    simp only [List.map_cons, ih]
    rfl

/-- C1: for every valid input (non-empty topics, `start_year ≤ end_year`) and
every response environment — failing pairs included — the sweep appends
exactly one Result Record per (topic, year) pair of the cartesian product, in
order, so the record count is `len(topics) * (end_year - start_year + 1)`. -/
theorem c1_one_record_per_pair (env : String → Int → Nat → ApiResponse)
    (jE : String → Int → Nat → Rat) (dE : String → Int → Rat) (ic : Bool)
    (ts : List String) (sy ey : Int) (hts : ts ≠ []) (hy : sy ≤ ey) :
    ((handleSearch env jE dE ic ts sy ey).results.map recordKey
        = pairsOf ts (yearsList sy ey))
    ∧ (((handleSearch env jE dE ic ts sy ey).results.length : Int)
        = ts.length * (ey - sy + 1)) := by
  have hres : (handleSearch env jE dE ic ts sy ey).results
      = (pairsOf ts (yearsList sy ey)).map (recordFor env jE ic) := by
    unfold handleSearch
    rw [if_neg (not_lt.mpr hy)]
    show (runSweep env jE dE ic ts sy ey).results = _
    rw [runSweep_eq, foldl_sweepStep_results]
    simp
  constructor
  · rw [hres, map_key_recordFor]
  · rw [hres, List.length_map, pairsOf_length, yearsList_length]
    have h1 : ((ey + 1 - sy).toNat : Int) = ey + 1 - sy := Int.toNat_of_nonneg (by omega)
    push_cast [h1]
    ring

/-- C1 (witness): one topic, years 2020–2021, all requests succeeding. -/
theorem c1_one_record_per_pair_witness :
    ((handleSearch envTotalFive zeroJitterEnv zeroDelayEnv false ["AI"] 2020 2021).results.map recordKey
        = pairsOf ["AI"] (yearsList 2020 2021))
    ∧ (((handleSearch envTotalFive zeroJitterEnv zeroDelayEnv false ["AI"] 2020 2021).results.length : Int)
        = (["AI"] : List String).length * (2021 - 2020 + 1)) :=
  c1_one_record_per_pair envTotalFive zeroJitterEnv zeroDelayEnv false ["AI"] 2020 2021
    (by decide) (by decide)

/-- C2: `start_year > end_year` rejects the whole sweep as a validation error
before any request: no executor invocation or sleep happens (empty trace),
and zero Result Records and zero per-item errors are produced. -/
theorem c2_validation_rejects (env : String → Int → Nat → ApiResponse)
    (jE : String → Int → Nat → Rat) (dE : String → Int → Rat) (ic : Bool)
    (ts : List String) (sy ey : Int) (h : sy > ey) :
    handleSearch env jE dE ic ts sy ey
      = { validationError := some validationErrMsg,
          results := [], errors := [], trace := [] } := by
  unfold handleSearch
  rw [if_pos h]

/-- C2 (witness): start year 2021, end year 2020. -/
theorem c2_validation_rejects_witness :
    handleSearch envTotalFive zeroJitterEnv zeroDelayEnv false ["AI"] 2021 2020
      = { validationError := some validationErrMsg,
          results := [], errors := [], trace := [] } :=
  c2_validation_rejects envTotalFive zeroJitterEnv zeroDelayEnv false ["AI"] 2021 2020
    (by decide)

theorem pairOutcome_citFail (env : String → Int → Nat → ApiResponse)
    (jE : String → Int → Nat → Rat) (t : String) (y : Int) (total : Nat) (m : String)
    (h : env t y 0 = ApiResponse.success total (Except.error m)) (hpos : 0 < total) :
    pairOutcome env jE true (t, y) = ⟨total, 0, some (citationAdvisoryMsg m)⟩ := by
  unfold pairOutcome search_semantic_scholar searchLoop
  rw [show (3 + 1 - 0 : Nat) = 3 + 1 from rfl, searchGo]
  simp only [h]
  simp [processSuccess, hpos]

/-- C6: with citation inclusion enabled, a successful primary count with a
positive total and a failing secondary citation request yield a Result Record
that keeps the positive publication count with `Average Citations = 0`, add
exactly one (non-empty) advisory entry to the error list, and do not abort
the sweep: the step still appends its record and a sweep over the pair
completes normally. -/
theorem c6_citation_advisory (env : String → Int → Nat → ApiResponse)
    (jE : String → Int → Nat → Rat) (dE : String → Int → Rat)
    (t : String) (y : Int) (total : Nat) (m : String) (st : SweepState)
    (h : env t y 0 = ApiResponse.success total (Except.error m)) (hpos : 0 < total) :
    sweepStep env jE dE true st (t, y)
      = { results := st.results ++ [⟨t, y, total, some 0⟩],
          errors := st.errors ++ [sweepErrMsg t y (citationAdvisoryMsg m)],
          trace := st.trace ++ [SweepEvent.sleep (dE t y), SweepEvent.invoke t y] }
    ∧ (runSweep env jE dE true [t] y y).results = [⟨t, y, total, some 0⟩]
    ∧ sweepErrMsg t y (citationAdvisoryMsg m) ≠ "" := by
  have hres := pairOutcome_citFail env jE t y total m h hpos
  have hrec : recordFor env jE true (t, y) = ⟨t, y, total, some 0⟩ := by
    unfold recordFor
    rw [hres]
    rfl
  refine ⟨?_, ?_, sweepErrMsg_ne_empty t y (citationAdvisoryMsg m)⟩
  · unfold sweepStep errListFor
    rw [hres, hrec]
  · rw [runSweep_eq, ]
    have hyy : yearsList y y = [y] := by
      have h1 : (y + 1 - y : Int) = 1 := by ring
      rw [yearsList, h1, show List.range (Int.toNat 1) = [0] from rfl]
      simp
    rw [hyy]
    show (sweepStep env jE dE true { results := [], errors := [], trace := [] } (t, y)).results = _
    unfold sweepStep
    rw [hrec]
    simp

/-- C6 (witness): pair ("AI", 2020), primary total 7, secondary request
raising "boom". -/
theorem c6_citation_advisory_witness :
    sweepStep envCitFail zeroJitterEnv zeroDelayEnv true
        { results := [], errors := [], trace := [] } ("AI", 2020)
      = { results := [] ++ [⟨"AI", 2020, 7, some 0⟩],
          errors := [] ++ [sweepErrMsg "AI" 2020 (citationAdvisoryMsg "boom")],
          trace := [] ++ [SweepEvent.sleep (zeroDelayEnv "AI" 2020),
                          SweepEvent.invoke "AI" 2020] }
    ∧ (runSweep envCitFail zeroJitterEnv zeroDelayEnv true ["AI"] 2020 2020).results
        = [⟨"AI", 2020, 7, some 0⟩]
    ∧ sweepErrMsg "AI" 2020 (citationAdvisoryMsg "boom") ≠ "" :=
  c6_citation_advisory envCitFail zeroJitterEnv zeroDelayEnv "AI" 2020 7 "boom"
    { results := [], errors := [], trace := [] } rfl (by decide)

/-- C7 (counterexample): with citation inclusion requested and a primary
count of 0, the produced Result Record still carries the
`Average Citations` field (value 0) — the claim that the field is absent
when `publications = 0` is false. -/
theorem c7_counterexample_field_present :
    (handleSearch envTotalZero zeroJitterEnv zeroDelayEnv true ["AI"] 2020 2020).results.map
        (fun r => (r.publications, r.avgCitations))
      = [(0, some 0)] := rfl

/-- C7 (amended): the `Average Citations` field of every Result Record is
present exactly when citation inclusion is requested, regardless of the
publication count of the record (with value 0 when nothing was sampled). -/
theorem c7_amended_presence_iff_flag (env : String → Int → Nat → ApiResponse)
    (jE : String → Int → Nat → Rat) (dE : String → Int → Rat) (ic : Bool)
    (ts : List String) (sy ey : Int) :
    ∀ r ∈ (handleSearch env jE dE ic ts sy ey).results, r.avgCitations.isSome = ic := by
  intro r hr
  unfold handleSearch at hr
  split at hr
  · simp at hr
  · change r ∈ (runSweep env jE dE ic ts sy ey).results at hr
    rw [runSweep_eq, foldl_sweepStep_results] at hr
    simp only [List.nil_append] at hr
    obtain ⟨p, _, rfl⟩ := List.mem_map.mp hr
    unfold recordFor
    cases ic <;> simp

/-- C7 (witness for the amended theorem): the zero-count record above has the
field present under citation inclusion. -/
theorem c7_amended_presence_iff_flag_witness :
    (⟨"AI", 2020, 0, some 0⟩ : ResultRecord).avgCitations.isSome = true :=
  c7_amended_presence_iff_flag envTotalZero zeroJitterEnv zeroDelayEnv true ["AI"] 2020 2020
    ⟨"AI", 2020, 0, some 0⟩ (by decide)

theorem traceOf_invoke_preceded (dE : String → Int → Rat) :
    ∀ (ps : List (String × Int)) (i : Nat) (t : String) (y : Int),
      (traceOf dE ps)[i]? = some (SweepEvent.invoke t y) →
      1 ≤ i ∧ (traceOf dE ps)[i-1]? = some (SweepEvent.sleep (dE t y)) := by
  intro ps
  induction ps with
  | nil => intro i t y h; simp [traceOf] at h
  | cons p ps ih =>
    intro i t y h
    match i with
    | 0 => simp [traceOf] at h
    | 1 =>
      rw [traceOf, List.getElem?_cons_succ, List.getElem?_cons_zero] at h
      simp only [Option.some.injEq, SweepEvent.invoke.injEq] at h
      obtain ⟨h1, h2⟩ := h
      refine ⟨le_refl 1, ?_⟩
      rw [traceOf, List.getElem?_cons_zero, h1, h2]
    | (k+2) =>
      rw [traceOf, List.getElem?_cons_succ, List.getElem?_cons_succ] at h
      obtain ⟨hk, hsleep⟩ := ih k t y h
      refine ⟨by omega, ?_⟩
      rw [show k + 2 - 1 = (k - 1) + 2 by omega, traceOf,
        List.getElem?_cons_succ, List.getElem?_cons_succ]
      exact hsleep

/-- C8: every executor invocation in the sweep trace — the very first
included — is immediately preceded by a courtesy sleep whose duration is the
delay draw of that pair; with the draw modelled as an arbitrary value in
`[min_delay, max_delay]`, that duration lies in `[min_delay, max_delay]`. -/
theorem c8_courtesy_delay (env : String → Int → Nat → ApiResponse)
    (jE : String → Int → Nat → Rat) (dE : String → Int → Rat) (ic : Bool)
    (ts : List String) (sy ey : Int) (min_delay max_delay : Rat)
    (hd : ∀ t y, min_delay ≤ dE t y ∧ dE t y ≤ max_delay) :
    ∀ (i : Nat) (t : String) (y : Int),
      (handleSearch env jE dE ic ts sy ey).trace[i]? = some (SweepEvent.invoke t y) →
      1 ≤ i
      ∧ (handleSearch env jE dE ic ts sy ey).trace[i-1]?
          = some (SweepEvent.sleep (dE t y))
      ∧ min_delay ≤ dE t y ∧ dE t y ≤ max_delay := by
  intro i t y h
  by_cases hsy : sy > ey
  · have htr : (handleSearch env jE dE ic ts sy ey).trace = [] := by
      unfold handleSearch
      rw [if_pos hsy]
    rw [htr] at h
    simp at h
  · have htr : (handleSearch env jE dE ic ts sy ey).trace
        = traceOf dE (pairsOf ts (yearsList sy ey)) := by
      unfold handleSearch
      rw [if_neg hsy]
      change (runSweep env jE dE ic ts sy ey).trace = _
      rw [runSweep_eq, foldl_sweepStep_trace]
      simp
    rw [htr] at h ⊢
    obtain ⟨h1, h2⟩ := traceOf_invoke_preceded dE (pairsOf ts (yearsList sy ey)) i t y h
    exact ⟨h1, h2, (hd t y).1, (hd t y).2⟩

/-- C8 (witness): one pair, delay draw 1 within bounds `[0, 2]`, checked at
the invocation at trace position 1. -/
theorem c8_courtesy_delay_witness :
    1 ≤ 1
    ∧ (handleSearch envTotalFive zeroJitterEnv oneDelayEnv false ["AI"] 2020 2020).trace[1-1]?
        = some (SweepEvent.sleep (oneDelayEnv "AI" 2020))
    ∧ (0 : Rat) ≤ oneDelayEnv "AI" 2020 ∧ oneDelayEnv "AI" 2020 ≤ 2 :=
  c8_courtesy_delay envTotalFive zeroJitterEnv oneDelayEnv false ["AI"] 2020 2020 0 2
    (fun _ _ => ⟨by norm_num [oneDelayEnv], by norm_num [oneDelayEnv]⟩)
    1 "AI" 2020 rfl

/-- C10: `create_plot` assigns a figure exactly for the plot types
"Line Plot", "Bar Plot" and "Area Plot"; for any other `plot_type` no branch
assigns `fig`, so the call errors (unbound local, modelled as `none`) instead
of returning a chart specification. -/
theorem c10_create_plot_totality (df : List Int) (pt x y color title : String)
    (labels : List (String × String)) :
    (create_plot df pt x y color title labels).isSome
      = (pt == "Line Plot" || pt == "Bar Plot" || pt == "Area Plot") := by
  unfold create_plot
  by_cases h1 : pt = "Line Plot"
  · simp [h1]
  · by_cases h2 : pt = "Bar Plot"
    · simp [h1, h2]
    · by_cases h3 : pt = "Area Plot"
      · simp [h1, h2, h3]
      · simp [h1, h2, h3]
